import Mathlib

/-!
Verification development for the uptimer repository: a shallow embedding of
the lifecycle orchestrator (MonitorServer), the bootstrap coordinator
(ApplicationBootstrap), the database module, and the Express routing table,
with theorems about startup sequencing, shutdown, and the HTTP surface.
-/

namespace Uptimer

/-- Error values thrown by the JavaScript code are modelled as strings. -/
abbrev Err := String

/-- Typed view of the configuration object from server/config.ts: the fields
the orchestrator reads. -/
structure Config where
  NODE_ENV : String
  PORT : Nat

/-- Embeds config.isDevelopment, defined in server/config.ts as
NODE_ENV equal to development. -/
def Config.isDevelopment (c : Config) : Bool := c.NODE_ENV == "development"

/-- Embeds config.isProduction from server/config.ts. -/
def Config.isProduction (c : Config) : Bool := c.NODE_ENV == "production"

/-! ## MonitorServer.start (server/server.ts, lines 253 to 281)

The five setup stages of start are embedded as an environment giving each
underlying asynchronous operation an outcome, and a function computing the
trace of stages begun, the final result, and whether listen was invoked. -/

/-- The five setup stages of MonitorServer.start, in source order. -/
inductive Stage where
  | apollo
  | standardMw
  | graphqlMw
  | handler404
  | listen
deriving DecidableEq, Repr

/-- Outcome environment for one run of MonitorServer.start: the result of
each underlying operation performed by the five stages. -/
structure StartEnv where
  apolloStart : Except Err Unit
  stdMw : Except Err Unit
  gqlMw : Except Err Unit
  h404 : Except Err Unit
  listenBind : Except Err Unit

/-- Embeds MonitorServer.startApolloServer (lines 289 to 300): awaits
apolloServer.start and rethrows any failure wrapped in a new Error. -/
def startApolloServer (env : StartEnv) : Except Err Unit :=
  match env.apolloStart with
  | .ok _ => .ok ()
  | .error e => .error ("Apollo Server startup error: " ++ e)

/-- Embeds MonitorServer.applyStandardMiddleware (lines 386 to 465):
synchronous middleware registration, propagating any throw unchanged. -/
def applyStandardMiddleware (env : StartEnv) : Except Err Unit := env.stdMw

/-- Embeds MonitorServer.applyGraphQLMiddleware (lines 311 to 375): mounts
the GraphQL route and rethrows any failure wrapped in a new Error. -/
def applyGraphQLMiddleware (env : StartEnv) : Except Err Unit :=
  match env.gqlMw with
  | .ok _ => .ok ()
  | .error e => .error ("GraphQL middleware error: " ++ e)

/-- Embeds MonitorServer.apply404Handler (lines 476 to 499): registers the
catch-all handler. -/
def apply404Handler (env : StartEnv) : Except Err Unit := env.h404

/-- Embeds MonitorServer.startHttpServer (lines 507 to 542): invokes listen
and resolves on success or rejects with the bind error. -/
def startHttpServer (env : StartEnv) : Except Err Unit := env.listenBind

/-- The outcome a given stage produces when executed under env, including
the wrapping each stage applies to its own error. -/
def stageRun (env : StartEnv) : Stage → Except Err Unit
  | .apollo => startApolloServer env
  | .standardMw => applyStandardMiddleware env
  | .graphqlMw => applyGraphQLMiddleware env
  | .handler404 => apply404Handler env
  | .listen => startHttpServer env

/-- The canonical order in which start executes its stages. -/
def startOrder : List Stage :=
  [.apollo, .standardMw, .graphqlMw, .handler404, .listen]

/-- Observable outcome of MonitorServer.start: the stages begun, the final
result, whether httpServer.listen was invoked, and whether the socket ended
up listening. -/
structure StartResult where
  trace : List Stage
  result : Except Err Unit
  listenCalled : Bool
  listeningFlag : Bool

/-- Embeds MonitorServer.start (lines 253 to 281): awaits the five stages in
sequence; the first failure aborts the rest and the catch block rethrows the
same error unchanged. -/
def MonitorServer.start (env : StartEnv) : StartResult :=
  match startApolloServer env with
  | .error e => ⟨[.apollo], .error e, false, false⟩
  | .ok _ =>
    match applyStandardMiddleware env with
    | .error e => ⟨[.apollo, .standardMw], .error e, false, false⟩
    | .ok _ =>
      match applyGraphQLMiddleware env with
      | .error e => ⟨[.apollo, .standardMw, .graphqlMw], .error e, false, false⟩
      | .ok _ =>
        match apply404Handler env with
        | .error e =>
            ⟨[.apollo, .standardMw, .graphqlMw, .handler404], .error e, false, false⟩
        | .ok _ =>
          match startHttpServer env with
          | .error e =>
              ⟨[.apollo, .standardMw, .graphqlMw, .handler404, .listen],
                .error e, true, false⟩
          | .ok _ =>
              ⟨[.apollo, .standardMw, .graphqlMw, .handler404, .listen],
                .ok (), true, true⟩

/-! ## MonitorServer.stop (lines 550 to 586) as an event-loop machine

Each stop invocation is a coroutine whose atomic blocks are delimited by the
await points of the source: the synchronous entry block (flag check plus flag
set), the await of apolloServer.stop, and the await of the close promise. -/

/-- Mutable state shared by all stop invocations: the isShuttingDown latch
and counters for how many times each teardown operation was invoked. -/
structure StopState where
  isShuttingDown : Bool
  apolloStops : Nat
  closeCalls : Nat
deriving DecidableEq, Repr

/-- Program counter of one stop invocation. doneEarly is the early return
taken when the latch is already set; failedApollo and failedClose are the
rethrow exits of the catch block. -/
inductive StopPC where
  | entry
  | doApollo
  | doClose
  | doneEarly
  | done
  | failedApollo
  | failedClose
deriving DecidableEq, Repr

/-- Outcome environment of one stop invocation: whether apolloServer.stop
rejects and whether httpServer.close reports an error. -/
structure StopEnv where
  apolloErr : Option Err
  closeErr : Option Err

/-- One atomic step of a stop invocation. The entry block checks and sets the
latch within one event-loop turn, before the first await; teardown steps
count their invocations; the latch is never cleared, even on failure. -/
def stopStep (env : StopEnv) : StopPC → StopState → StopPC × StopState
  | .entry, s =>
      if s.isShuttingDown then (.doneEarly, s)
      else (.doApollo, { s with isShuttingDown := true })
  | .doApollo, s =>
      match env.apolloErr with
      | some _ => (.failedApollo, { s with apolloStops := s.apolloStops + 1 })
      | none => (.doClose, { s with apolloStops := s.apolloStops + 1 })
  | .doClose, s =>
      match env.closeErr with
      | some _ => (.failedClose, { s with closeCalls := s.closeCalls + 1 })
      | none => (.done, { s with closeCalls := s.closeCalls + 1 })
  | p, s => (p, s)

/-- Joint configuration of two concurrent stop invocations. -/
structure TwoStops where
  pcA : StopPC
  pcB : StopPC
  st : StopState
deriving Repr

/-- Scheduler step: true lets invocation A take one atomic step, false
lets invocation B. -/
def schedStep (envA envB : StopEnv) (b : Bool) (t : TwoStops) : TwoStops :=
  if b then
    let p := stopStep envA t.pcA t.st
    ⟨p.1, t.pcB, p.2⟩
  else
    let p := stopStep envB t.pcB t.st
    ⟨t.pcA, p.1, p.2⟩

/-- Runs a whole interleaving of the two invocations. -/
def runSched (envA envB : StopEnv) : List Bool → TwoStops → TwoStops
  | [], t => t
  | b :: rest, t => runSched envA envB rest (schedStep envA envB b t)

/-- Initial configuration: both invocations at entry, latch clear, no
teardown performed yet. -/
def initTwo : TwoStops := ⟨.entry, .entry, ⟨false, 0, 0⟩⟩

/-- A program counter inside or past the teardown sequence. -/
def teardownish : StopPC → Bool
  | .doApollo | .doClose | .done | .failedApollo | .failedClose => true
  | _ => false

/-- A terminated invocation. -/
def finishedPC : StopPC → Bool
  | .doneEarly | .done | .failedApollo | .failedClose => true
  | _ => false

/-- Number of apolloServer.stop invocations an invocation at this pc has
performed. -/
def contribApollo : StopPC → Nat
  | .entry | .doneEarly | .doApollo => 0
  | _ => 1

/-- Number of httpServer.close invocations an invocation at this pc has
performed. -/
def contribClose : StopPC → Nat
  | .done | .failedClose => 1
  | _ => 0

/-- Inductive invariant of the two-invocation machine. -/
def StopInv (envA envB : StopEnv) (t : TwoStops) : Prop :=
  t.st.apolloStops = contribApollo t.pcA + contribApollo t.pcB ∧
  t.st.closeCalls = contribClose t.pcA + contribClose t.pcB ∧
  (t.st.isShuttingDown = false → t.pcA = .entry ∧ t.pcB = .entry) ∧
  (t.st.isShuttingDown = true → teardownish t.pcA = true ∨ teardownish t.pcB = true) ∧
  ¬(teardownish t.pcA = true ∧ teardownish t.pcB = true) ∧
  (t.pcA = .failedApollo → envA.apolloErr.isSome) ∧
  (t.pcB = .failedApollo → envB.apolloErr.isSome)

/-! ## MonitorServer.stop duration model (lines 559 to 578)

stop awaits apolloServer.stop, then a promise that settles at the earlier of
the close callback and a fixed 10000 millisecond timer. -/

/-- The fixed watchdog budget from the setTimeout call in stop. -/
def watchdogTimeoutMs : Nat := 10000

/-- Settling time of the inner promise of stop: the close callback after
closeDur milliseconds (none meaning never) races the watchdog timer. -/
def closeRaceDuration (closeDur : Option Nat) : Nat :=
  match closeDur with
  | none => watchdogTimeoutMs
  | some d => min d watchdogTimeoutMs

/-- Total settling time of stop: apolloServer.stop is awaited first,
unbounded by any timer, then the close race. -/
def stopDuration (apolloDur : Nat) (closeDur : Option Nat) : Nat :=
  apolloDur + closeRaceDuration closeDur

/-! ## getServerInfo and the health route (lines 453 to 462 and 594 to 608) -/

/-- JSON-like values, enough to express the response bodies the server
builds. -/
inductive JVal where
  | str (s : String)
  | num (n : Nat)
  | boolean (b : Bool)
  | obj (fields : List (String × JVal))

/-- Embeds MonitorServer.getServerInfo (lines 594 to 608) as the ordered
field list of the object it returns. -/
def getServerInfoJson (cfg : Config) (pid uptimeSec : Nat)
    (listening shuttingDown : Bool) : List (String × JVal) :=
  [("port", .num cfg.PORT),
   ("pid", .num pid),
   ("environment", .str cfg.NODE_ENV),
   ("uptime", .num uptimeSec),
   ("isListening", .boolean listening),
   ("isShuttingDown", .boolean shuttingDown),
   ("graphql", .obj
      [("endpoint", .str "/graphql"),
       ("playground", .str (if cfg.isDevelopment then "enabled" else "disabled")),
       ("introspection", .boolean cfg.isDevelopment)])]

/-- Embeds the GET /health handler body (lines 453 to 462): the fixed status
field and a timestamp, spread together with getServerInfo. -/
def healthRouteBody (cfg : Config) (timestamp : String) (pid uptimeSec : Nat)
    (listening shuttingDown : Bool) : List (String × JVal) :=
  [("status", .str "healthy"), ("timestamp", .str timestamp)] ++
    getServerInfoJson cfg pid uptimeSec listening shuttingDown

/-- The six snapshot fields the specification lists for ServerInfo. -/
def specServerInfoFields : List String :=
  ["port", "pid", "environment", "uptime", "isListening", "isShuttingDown"]

/-! ## Database module (server/database.ts) and bootstrap (app entry point)

Process-level effects are modelled by an outcome type in which process.exit
is distinct from a thrown error: nothing catches an exit. -/

/-- Outcome of a step of the bootstrap: normal return, a thrown error that
enclosing catch blocks may handle, or a process exit that nothing catches. -/
inductive ProcOutcome (α : Type) where
  | ok (a : α)
  | thrown (e : Err)
  | exited (code : Nat)
deriving Repr

/-- Embeds connectDatabase (database.ts lines 52 to 64): on authenticate
failure the catch block logs and calls process.exit(1) directly, so the
function never throws to its caller. -/
def connectDatabase (dbAuth : Except Err Unit) : ProcOutcome Unit :=
  match dbAuth with
  | .ok _ => .ok ()
  | .error _ => .exited 1

/-- Embeds syncDatabase (database.ts lines 69 to 85): rejects force sync in
production, otherwise propagates the sync outcome. -/
def syncDatabase (cfg : Config) (force : Bool) (dbSync : Except Err Unit) :
    ProcOutcome Unit :=
  if cfg.isProduction && force then
    .thrown "Cannot use force sync in production environment"
  else
    match dbSync with
    | .ok _ => .ok ()
    | .error e => .thrown e

/-- Embeds closeDatabase (database.ts lines 90 to 97): the catch block logs
the close error and swallows it, so the function always resolves. -/
def closeDatabase (dbClose : Except Err Unit) : Except Err Unit :=
  match dbClose with
  | .ok _ => .ok ()
  | .error _ => .ok ()

/-- Outcome environment for one bootstrap run. -/
structure BootEnv where
  configOk : Except Err Unit
  dbAuth : Except Err Unit
  dbSync : Except Err Unit
  startEnv : StartEnv

/-- Embeds ApplicationBootstrap.validateConfiguration: wraps any throw of
validateConfig in a new Error. -/
def validateConfiguration (env : BootEnv) : ProcOutcome Unit :=
  match env.configOk with
  | .ok _ => .ok ()
  | .error e => .thrown ("Configuration validation error: " ++ e)

/-- Embeds ApplicationBootstrap.setupDatabase: connectDatabase, then a
conditional model sync; the catch block wraps thrown errors but a process
exit inside connectDatabase is not catchable. -/
def setupDatabase (cfg : Config) (env : BootEnv) : ProcOutcome Unit :=
  match connectDatabase env.dbAuth with
  | .exited c => .exited c
  | .thrown e => .thrown ("Database setup error: " ++ e)
  | .ok _ =>
    match (if cfg.isDevelopment then syncDatabase cfg false env.dbSync
           else if cfg.NODE_ENV == "production" then syncDatabase cfg false env.dbSync
           else .ok ()) with
    | .ok _ => .ok ()
    | .thrown e => .thrown ("Database setup error: " ++ e)
    | .exited c => .exited c

/-- Embeds ApplicationBootstrap.checkGraphQLReadiness: only logs, never
fails. -/
def checkGraphQLReadiness : ProcOutcome Unit := .ok ()

/-- Embeds ApplicationBootstrap.startFullStackServer: awaits
MonitorServer.start and wraps any failure in a new Error. -/
def startFullStackServer (env : BootEnv) : ProcOutcome Unit :=
  match (MonitorServer.start env.startEnv).result with
  | .ok _ => .ok ()
  | .error e => .thrown ("Full-Stack server startup error: " ++ e)

/-- The four startup steps of initializeApplication, in source order. -/
inductive BootStep where
  | validateCfg
  | setupDb
  | graphqlReady
  | startServer
deriving DecidableEq, Repr

/-- Observable outcome of one initializeApplication call. -/
structure BootResult where
  initialized : Bool
  warned : Bool
  stepsRun : List BootStep
  errorPathRan : Bool
  dbCloseCalled : Bool
  monitorStopCalled : Bool
  exitCode : Option Nat
deriving Repr

/-- Embeds ApplicationBootstrap.handleBootstrapError (lines 342 to 366):
closes the database, stops the monitor server, swallows cleanup errors, and
always exits with code 1 in the finally block. -/
def handleBootstrapErrorResult (steps : List BootStep) : BootResult :=
  ⟨false, false, steps, true, true, true, some 1⟩

/-- Result of a step that exited the process directly, bypassing the
bootstrap error path. -/
def directExitResult (steps : List BootStep) (c : Nat) : BootResult :=
  ⟨false, false, steps, false, false, false, some c⟩

/-- Embeds ApplicationBootstrap.initializeApplication (lines 110 to 149):
the already-initialized guard, the four sequential startup steps, the
initialized flag set only after all of them succeed, and the catch routing
any thrown error to handleBootstrapError. -/
def initializeApplication (cfg : Config) (env : BootEnv) (isInit : Bool) :
    BootResult :=
  if isInit then
    ⟨true, true, [], false, false, false, none⟩
  else
    match validateConfiguration env with
    | .thrown _ => handleBootstrapErrorResult [.validateCfg]
    | .exited c => directExitResult [.validateCfg] c
    | .ok _ =>
      match setupDatabase cfg env with
      | .thrown _ => handleBootstrapErrorResult [.validateCfg, .setupDb]
      | .exited c => directExitResult [.validateCfg, .setupDb] c
      | .ok _ =>
        match checkGraphQLReadiness with
        | .thrown _ =>
            handleBootstrapErrorResult [.validateCfg, .setupDb, .graphqlReady]
        | .exited c =>
            directExitResult [.validateCfg, .setupDb, .graphqlReady] c
        | .ok _ =>
          match startFullStackServer env with
          | .thrown _ =>
              handleBootstrapErrorResult
                [.validateCfg, .setupDb, .graphqlReady, .startServer]
          | .exited c =>
              directExitResult
                [.validateCfg, .setupDb, .graphqlReady, .startServer] c
          | .ok _ =>
              ⟨true, false,
                [.validateCfg, .setupDb, .graphqlReady, .startServer],
                false, false, false, none⟩

/-- Embeds ApplicationBootstrap.gracefulShutdown (lines 379 to 401): stop
the monitor server, then close the database, exit 0 on success of the try
block and 1 if it throws. Returns the exit code, whether stop was invoked,
and whether closeDatabase was invoked. -/
def gracefulShutdown (stopRes dbClose : Except Err Unit) : Nat × Bool × Bool :=
  match stopRes with
  | .error _ => (1, true, false)
  | .ok _ =>
    match closeDatabase dbClose with
    | .error _ => (1, true, true)
    | .ok _ => (0, true, true)

/-! ## Express routing table after a full start (claim C9)

The registered handler chain in registration order, with pass-through
middleware returning none and terminal handlers returning their tag. -/

/-- Identifies which registered handler produced the response. -/
inductive HandlerTag where
  | rootRoute
  | healthRoute
  | corsPreflight
  | graphiql
  | apollo
  | notFound
deriving DecidableEq, Repr

/-- HTTP methods relevant to the registered routes. -/
inductive Method where
  | get
  | post
  | options
  | put
deriving DecidableEq, Repr

/-- An incoming request: method and path. -/
structure Req where
  method : Method
  path : String

/-- Boolean test that pre is a proper head of s, character by character. -/
def segPre : List Char → List Char → Bool
  | [], _ => true
  | _ :: _, [] => false
  | a :: as, b :: bs => a == b && segPre as bs

/-- How a handler registration is matched against a request: app.use with no
path matches everything, app.use with a mount path matches the path and its
subpaths, app.get matches the exact path for GET requests. -/
inductive Matcher where
  | all
  | useAt (p : String)
  | getAt (p : String)

/-- Express matching semantics for each registration kind. -/
def Matcher.accepts : Matcher → Req → Bool
  | .all, _ => true
  | .useAt p, r => r.path == p || segPre (p.data ++ ['/']) r.path.data
  | .getAt p, r => (r.method == .get) && r.path == p

/-- The handler chain registered by a completed MonitorServer.start, in
registration order: cookie session, security headers, the development
request logger, the root route, the health route, the GraphQL CORS
middleware (terminal only for OPTIONS), the development GraphiQL route, the
Apollo route handler, and the catch-all 404 last. -/
def appHandlers (dev : Bool) : List (Matcher × (Req → Option HandlerTag)) :=
  [(.all, fun _ => none),
   (.all, fun _ => none)] ++
  (if dev then [(.all, fun _ => none)] else []) ++
  [(.getAt "/", fun _ => some .rootRoute),
   (.getAt "/health", fun _ => some .healthRoute),
   (.useAt "/graphql", fun r =>
      if r.method == .options then some .corsPreflight else none)] ++
  (if dev then [(.getAt "/graphql", fun _ => some .graphiql)] else []) ++
  [(.useAt "/graphql", fun _ => some .apollo),
   (.all, fun _ => some .notFound)]

/-- Express dispatch: the first accepting registration whose handler
responds wins; pass-through handlers fall to the next registration. -/
def dispatch : List (Matcher × (Req → Option HandlerTag)) → Req → Option HandlerTag
  | [], _ => none
  | (m, h) :: rest, r =>
    if m.accepts r then
      match h r with
      | some t => some t
      | none => dispatch rest r
    else dispatch rest r

/-- The methods each of the three documented paths supports. -/
def validFor (p : String) (m : Method) : Prop :=
  (p = "/" ∧ m = .get) ∨ (p = "/health" ∧ m = .get) ∨
    (p = "/graphql" ∧ (m = .get ∨ m = .post ∨ m = .options))

/-! ## Concrete environments used to evaluate the theorems -/

/-- A development-mode configuration on the default port. -/
def devCfg : Config := ⟨"development", 5000⟩

/-- A run in which every startup operation succeeds. -/
def allOkStart : StartEnv := ⟨.ok (), .ok (), .ok (), .ok (), .ok ()⟩

/-- A run in which apolloServer.start rejects. -/
def apolloDownStart : StartEnv := ⟨.error "boom", .ok (), .ok (), .ok (), .ok ()⟩

/-- A run in which binding the listen socket fails with a port conflict. -/
def portBoundStart : StartEnv :=
  ⟨.ok (), .ok (), .ok (), .ok (), .error "listen EADDRINUSE"⟩

/-- A bootstrap run in which the database is unreachable. -/
def dbDownBoot : BootEnv := ⟨.ok (), .error "ECONNREFUSED", .ok (), allOkStart⟩

/-- A bootstrap run in which the listen port is already bound. -/
def portBoundBoot : BootEnv := ⟨.ok (), .ok (), .ok (), portBoundStart⟩

/-- A bootstrap run in which everything succeeds. -/
def allOkBoot : BootEnv := ⟨.ok (), .ok (), .ok (), allOkStart⟩

/-- A stop invocation whose teardown operations all succeed. -/
def okStopEnv : StopEnv := ⟨none, none⟩

/-! ## Theorems -/

/-- C1: every invocation of MonitorServer.start runs its five stages in the
strict order apollo, standard middleware, GraphQL middleware, 404 handler,
listen: the trace is always an in-order prefix of that order, all five run
exactly when start resolves, and on failure the last stage begun produced
exactly the propagated error, so no later stage runs and the error reaches
the caller unchanged. -/
theorem start_stages_sequential (env : StartEnv) :
    (MonitorServer.start env).trace =
      startOrder.take (MonitorServer.start env).trace.length
  ∧ (MonitorServer.start env).trace.length ≤ 5
  ∧ ((MonitorServer.start env).result = Except.ok () →
      (MonitorServer.start env).trace = startOrder)
  ∧ (∀ e, (MonitorServer.start env).result = Except.error e →
      ((MonitorServer.start env).trace.getLast?).map (stageRun env) =
        some (Except.error e)) := by
  obtain ⟨ea, es, eg, eh, el⟩ := env
  cases ea <;> cases es <;> cases eg <;> cases eh <;> cases el <;>
    simp [MonitorServer.start, startApolloServer, applyStandardMiddleware,
      applyGraphQLMiddleware, apply404Handler, startHttpServer, stageRun,
      startOrder]

/-- Witness for C1: evaluated on a run whose Apollo stage rejects. -/
theorem start_stages_sequential_check :
    ((MonitorServer.start apolloDownStart).trace.getLast?).map
        (stageRun apolloDownStart) =
      some (Except.error ("Apollo Server startup error: " ++ "boom")) :=
  (start_stages_sequential apolloDownStart).2.2.2 _ rfl

/-- C2: whenever the Apollo sub-server start rejects, MonitorServer.start
rejects without ever invoking listen, the socket never becomes listening,
and the getServerInfo snapshot keeps isListening false. -/
theorem apollo_failure_blocks_listen (env : StartEnv) (e : Err)
    (h : env.apolloStart = .error e) (cfg : Config) (pid up : Nat) :
    (MonitorServer.start env).listenCalled = false
  ∧ (MonitorServer.start env).listeningFlag = false
  ∧ (MonitorServer.start env).result =
      Except.error ("Apollo Server startup error: " ++ e)
  ∧ (getServerInfoJson cfg pid up (MonitorServer.start env).listeningFlag
        false).lookup "isListening" = some (JVal.boolean false) := by
  obtain ⟨ea, es, eg, eh, el⟩ := env
  simp only at h
  subst h
  simp [MonitorServer.start, startApolloServer, getServerInfoJson, List.lookup]

/-- Witness for C2: evaluated on the concrete apollo-failure run. -/
theorem apollo_failure_blocks_listen_check :
    (MonitorServer.start apolloDownStart).listenCalled = false
  ∧ (MonitorServer.start apolloDownStart).listeningFlag = false
  ∧ (MonitorServer.start apolloDownStart).result =
      Except.error ("Apollo Server startup error: " ++ "boom")
  ∧ (getServerInfoJson devCfg 1 0 (MonitorServer.start apolloDownStart).listeningFlag
        false).lookup "isListening" = some (JVal.boolean false) :=
  apollo_failure_blocks_listen apolloDownStart "boom" rfl devCfg 1 0

/-- C4 counterexample: stop does not resolve within the watchdog budget plus
a small epsilon for every invocation, because the watchdog races only the
HTTP close stage; if apolloServer.stop takes 20000 ms and the close never
finishes, stop takes 30000 ms, beyond 10000 plus 1000. -/
theorem stop_duration_counterexample :
    stopDuration 20000 none = 30000
  ∧ ¬ stopDuration 20000 none ≤ watchdogTimeoutMs + 1000 := by
  exact ⟨rfl, by decide⟩

/-- C4 amended: the watchdog bounds only the close stage, so stop resolves
within the duration of apolloServer.stop plus the 10000 ms watchdog budget,
even when the close never finishes; in particular when the Apollo stop is
immediate the whole teardown is bounded by the watchdog budget. -/
theorem stop_duration_bounded (a : Nat) (c : Option Nat) :
    stopDuration a c ≤ a + watchdogTimeoutMs
  ∧ closeRaceDuration c ≤ watchdogTimeoutMs
  ∧ stopDuration 0 c ≤ watchdogTimeoutMs := by
  cases c
  · simp [stopDuration, closeRaceDuration, watchdogTimeoutMs]
  · refine ⟨?_, ?_, ?_⟩ <;>
      simp only [stopDuration, closeRaceDuration, watchdogTimeoutMs,
        Nat.zero_add] <;> omega

/-- C6 counterexample: when the underlying database close reports an error
during teardown, gracefulShutdown still exits with code 0, because
closeDatabase swallows the error, contradicting exit code 1 on any teardown
error. -/
theorem shutdown_swallowed_close_error :
    (gracefulShutdown (Except.ok ()) (Except.error "close failed")).1 = 0
  ∧ (0 : Nat) ≠ 1 := by
  exact ⟨rfl, by decide⟩

/-- C6 amended: gracefulShutdown always attempts the orchestrator stop, and
attempts the database close exactly when stop succeeded; it exits 1 when
stop throws, and exits 0 whenever stop succeeds, because closeDatabase
swallows every error of the underlying close and so never throws. -/
theorem graceful_shutdown_exit_codes (stopRes dbClose : Except Err Unit) :
    (gracefulShutdown stopRes dbClose).2.1 = true
  ∧ (∀ e, stopRes = Except.error e →
      gracefulShutdown stopRes dbClose = (1, true, false))
  ∧ (stopRes = Except.ok () →
      (gracefulShutdown stopRes dbClose).2.2 = true ∧
        (gracefulShutdown stopRes dbClose).1 = 0)
  ∧ closeDatabase dbClose = Except.ok () := by
  cases stopRes <;> cases dbClose <;> simp [gracefulShutdown, closeDatabase]

/-- Witness for C6 amended: evaluated on a teardown whose stop throws. -/
theorem graceful_shutdown_exit_codes_check :
    gracefulShutdown (Except.error "apollo stop failed") (Except.ok ()) =
      (1, true, false) :=
  (graceful_shutdown_exit_codes (Except.error "apollo stop failed")
    (Except.ok ())).2.1 _ rfl

/-- C8 counterexample: the getServerInfo snapshot does not consist of only
the six claimed fields; evaluated on a concrete configuration it carries a
seventh field named graphql. -/
theorem server_info_extra_field :
    (getServerInfoJson devCfg 42 7 true false).map Prod.fst =
      specServerInfoFields ++ ["graphql"]
  ∧ (getServerInfoJson devCfg 42 7 true false).map Prod.fst ≠
      specServerInfoFields := by
  refine ⟨rfl, fun hcontra => ?_⟩
  exact absurd (congrArg List.length hcontra) (by decide)

/-- C8 amended: the health route body is the fixed status healthy field and
a timestamp merged with the getServerInfo snapshot, whose fields are the
port, process id, environment name, uptime, listening flag, shutting-down
flag, and additionally a graphql descriptor object. -/
theorem health_body_fields (cfg : Config) (ts : String) (pid up : Nat)
    (l sd : Bool) :
    (healthRouteBody cfg ts pid up l sd).map Prod.fst =
      ["status", "timestamp"] ++ specServerInfoFields ++ ["graphql"]
  ∧ (healthRouteBody cfg ts pid up l sd).lookup "status" =
      some (JVal.str "healthy")
  ∧ (healthRouteBody cfg ts pid up l sd).lookup "timestamp" =
      some (JVal.str ts)
  ∧ (healthRouteBody cfg ts pid up l sd).lookup "port" =
      some (JVal.num cfg.PORT)
  ∧ (healthRouteBody cfg ts pid up l sd).lookup "pid" =
      some (JVal.num pid)
  ∧ (healthRouteBody cfg ts pid up l sd).lookup "environment" =
      some (JVal.str cfg.NODE_ENV)
  ∧ (healthRouteBody cfg ts pid up l sd).lookup "uptime" =
      some (JVal.num up)
  ∧ (healthRouteBody cfg ts pid up l sd).lookup "isListening" =
      some (JVal.boolean l)
  ∧ (healthRouteBody cfg ts pid up l sd).lookup "isShuttingDown" =
      some (JVal.boolean sd) := by
  exact ⟨rfl, rfl, rfl, rfl, rfl, rfl, rfl, rfl, rfl⟩

/-- C5 counterexample: with the database unreachable, the process exits with
code 1 directly inside connectDatabase, so the bootstrap error path never
runs and no already-acquired resource is released. -/
theorem db_unreachable_counterexample :
    (initializeApplication devCfg dbDownBoot false).exitCode = some 1
  ∧ (initializeApplication devCfg dbDownBoot false).errorPathRan = false
  ∧ (initializeApplication devCfg dbDownBoot false).dbCloseCalled = false := by
  exact ⟨rfl, rfl, rfl⟩

/-- C5 amended: a bind failure on the listen socket propagates to the
bootstrap error path, which closes the database connection, stops the
orchestrator, and exits with code 1; a database-unreachable failure instead
terminates the process with code 1 directly inside connectDatabase, without
running the bootstrap error path or releasing anything. -/
theorem resource_failure_paths (cfg : Config) (env : BootEnv) (e : Err) :
    (validateConfiguration env = ProcOutcome.ok () →
     env.dbAuth = Except.error e →
      initializeApplication cfg env false =
        directExitResult [.validateCfg, .setupDb] 1)
  ∧ (validateConfiguration env = ProcOutcome.ok () →
     setupDatabase cfg env = ProcOutcome.ok () →
     env.startEnv.apolloStart = Except.ok () →
     env.startEnv.stdMw = Except.ok () →
     env.startEnv.gqlMw = Except.ok () →
     env.startEnv.h404 = Except.ok () →
     env.startEnv.listenBind = Except.error e →
      initializeApplication cfg env false =
        handleBootstrapErrorResult
          [.validateCfg, .setupDb, .graphqlReady, .startServer]) := by
  constructor
  · intro hv hdb
    simp [initializeApplication, hv, setupDatabase, connectDatabase, hdb]
  · intro hv hs h1 h2 h3 h4 h5
    simp [initializeApplication, hv, hs, checkGraphQLReadiness,
      startFullStackServer, MonitorServer.start, startApolloServer,
      applyStandardMiddleware, applyGraphQLMiddleware, apply404Handler,
      startHttpServer, h1, h2, h3, h4, h5]

/-- Witness for C5 amended: evaluated on the unreachable-database run and on
the port-conflict run. -/
theorem resource_failure_paths_check :
    initializeApplication devCfg dbDownBoot false =
      directExitResult [.validateCfg, .setupDb] 1
  ∧ initializeApplication devCfg portBoundBoot false =
      handleBootstrapErrorResult
        [.validateCfg, .setupDb, .graphqlReady, .startServer] :=
  ⟨(resource_failure_paths devCfg dbDownBoot "ECONNREFUSED").1 rfl rfl,
   (resource_failure_paths devCfg portBoundBoot "listen EADDRINUSE").2
     rfl rfl rfl rfl rfl rfl rfl⟩

/-- C7: the initialized flag becomes true exactly when configuration
validation, database setup and the full-stack server start all succeed, and
it is only set with the complete step sequence run; once the flag is set,
every subsequent initializeApplication call performs no startup step, logs
the warning, and leaves the process running. -/
theorem initialized_flag_guard (cfg : Config) (env : BootEnv) :
    ((initializeApplication cfg env false).initialized = true ↔
      (validateConfiguration env = ProcOutcome.ok () ∧
       setupDatabase cfg env = ProcOutcome.ok () ∧
       startFullStackServer env = ProcOutcome.ok ()))
  ∧ ((initializeApplication cfg env false).initialized = true →
      (initializeApplication cfg env false).stepsRun =
        [.validateCfg, .setupDb, .graphqlReady, .startServer])
  ∧ (initializeApplication cfg env true).stepsRun = []
  ∧ (initializeApplication cfg env true).warned = true
  ∧ (initializeApplication cfg env true).initialized = true
  ∧ (initializeApplication cfg env true).exitCode = none := by
  cases hv : validateConfiguration env <;>
    cases hs : setupDatabase cfg env <;>
      cases hf : startFullStackServer env <;>
        simp [initializeApplication, hv, hs, hf, checkGraphQLReadiness,
          handleBootstrapErrorResult, directExitResult]

/-- Witness for C7: evaluated on the fully successful bootstrap run. -/
theorem initialized_flag_guard_check :
    (initializeApplication devCfg allOkBoot false).initialized = true
  ∧ (initializeApplication devCfg allOkBoot false).stepsRun =
      [.validateCfg, .setupDb, .graphqlReady, .startServer] := by
  have h := initialized_flag_guard devCfg allOkBoot
  exact ⟨h.1.mpr ⟨rfl, rfl, rfl⟩, h.2.1 (h.1.mpr ⟨rfl, rfl, rfl⟩)⟩

/-- C9: on a fully started server, in either mode, every request to one of
the three documented paths with a method valid for that path is answered by
a handler registered before the catch-all, never by the 404 handler, while
a path outside that set falls through to the 404 handler. -/
theorem catch_all_never_shadows (dev : Bool) (m : Method) (p : String)
    (h : validFor p m) :
    (∃ t, dispatch (appHandlers dev) ⟨m, p⟩ = some t ∧ t ≠ HandlerTag.notFound)
  ∧ dispatch (appHandlers dev) ⟨.get, "/nope"⟩ = some HandlerTag.notFound := by
  constructor
  · rcases h with ⟨hp, hm⟩ | ⟨hp, hm⟩ | ⟨hp, hm | hm | hm⟩ <;>
      subst hp <;> subst hm <;> cases dev
    · exact ⟨.rootRoute, rfl, by decide⟩
    · exact ⟨.rootRoute, rfl, by decide⟩
    · exact ⟨.healthRoute, rfl, by decide⟩
    · exact ⟨.healthRoute, rfl, by decide⟩
    · exact ⟨.apollo, rfl, by decide⟩
    · exact ⟨.graphiql, rfl, by decide⟩
    · exact ⟨.apollo, rfl, by decide⟩
    · exact ⟨.apollo, rfl, by decide⟩
    · exact ⟨.corsPreflight, rfl, by decide⟩
    · exact ⟨.corsPreflight, rfl, by decide⟩
  · cases dev <;> rfl

/-- One step of one stop invocation preserves the joint invariant stated
relative to the other, unchanged invocation. -/
theorem stopStep_inv (env : StopEnv) (p q : StopPC) (s : StopState)
    (hap : s.apolloStops = contribApollo p + contribApollo q)
    (hcl : s.closeCalls = contribClose p + contribClose q)
    (hff : s.isShuttingDown = false → p = .entry ∧ q = .entry)
    (htt : s.isShuttingDown = true →
      teardownish p = true ∨ teardownish q = true)
    (hex : ¬(teardownish p = true ∧ teardownish q = true))
    (hfa : p = .failedApollo → env.apolloErr.isSome) :
    (stopStep env p s).2.apolloStops =
      contribApollo (stopStep env p s).1 + contribApollo q
  ∧ (stopStep env p s).2.closeCalls =
      contribClose (stopStep env p s).1 + contribClose q
  ∧ ((stopStep env p s).2.isShuttingDown = false →
      (stopStep env p s).1 = .entry ∧ q = .entry)
  ∧ ((stopStep env p s).2.isShuttingDown = true →
      teardownish (stopStep env p s).1 = true ∨ teardownish q = true)
  ∧ ¬(teardownish (stopStep env p s).1 = true ∧ teardownish q = true)
  ∧ ((stopStep env p s).1 = .failedApollo → env.apolloErr.isSome) := by
  obtain ⟨sd, ap, cl⟩ := s
  cases sd <;> cases p <;> cases q <;>
    (try cases hA : env.apolloErr) <;> (try cases hC : env.closeErr) <;>
    simp_all [stopStep, teardownish, contribApollo, contribClose]

/-- schedStep preserves the joint invariant of the two stop invocations. -/
theorem stopInv_step (envA envB : StopEnv) (b : Bool) (t : TwoStops)
    (h : StopInv envA envB t) : StopInv envA envB (schedStep envA envB b t) := by
  obtain ⟨h1, h2, h3, h4, h5, h6, h7⟩ := h
  cases b
  · obtain ⟨g1, g2, g3, g4, g5, g6⟩ :=
      stopStep_inv envB t.pcB t.pcA t.st (h1.trans (Nat.add_comm _ _))
        (h2.trans (Nat.add_comm _ _))
        (fun hf => ⟨(h3 hf).2, (h3 hf).1⟩) (fun ht => (h4 ht).symm)
        (fun hc => h5 ⟨hc.2, hc.1⟩) h7
    refine ⟨?_, ?_, ?_, ?_, ?_, ?_, ?_⟩ <;> simp only [schedStep] <;>
      simp only [Bool.false_eq_true, if_false]
    · omega
    · omega
    · exact fun hf => ⟨(g3 hf).2, (g3 hf).1⟩
    · exact fun ht => (g4 ht).symm
    · exact fun hc => g5 ⟨hc.2, hc.1⟩
    · exact h6
    · exact g6
  · obtain ⟨g1, g2, g3, g4, g5, g6⟩ :=
      stopStep_inv envA t.pcA t.pcB t.st h1 h2 h3 h4 h5 h6
    refine ⟨?_, ?_, ?_, ?_, ?_, ?_, ?_⟩ <;> simp only [schedStep] <;>
      simp only [if_true]
    · exact g1
    · exact g2
    · exact g3
    · exact g4
    · exact g5
    · exact g6
    · exact h7

/-- The joint invariant holds along every interleaving. -/
theorem stopInv_run (envA envB : StopEnv) (sched : List Bool) (t : TwoStops)
    (h : StopInv envA envB t) :
    StopInv envA envB (runSched envA envB sched t) := by
  induction sched generalizing t with
  | nil => exact h
  | cons b rest ih => exact ih _ (stopInv_step envA envB b t h)

/-- The joint invariant holds initially. -/
theorem stopInv_initTwo (envA envB : StopEnv) : StopInv envA envB initTwo := by
  refine ⟨rfl, rfl, fun _ => ⟨rfl, rfl⟩, fun hc => ?_, ?_, ?_, ?_⟩ <;>
    simp [initTwo, teardownish] at *

/-- In any invariant configuration where both invocations terminated, the
teardown ran exactly once. -/
theorem stop_inv_final (envA envB : StopEnv) (t : TwoStops)
    (h : StopInv envA envB t) (hA : finishedPC t.pcA = true)
    (hB : finishedPC t.pcB = true) :
    t.st.apolloStops = 1 ∧ t.st.closeCalls ≤ 1 ∧
      (envA.apolloErr = none → envB.apolloErr = none →
        t.st.closeCalls = 1) := by
  obtain ⟨pa, pb, ⟨sd, ap, cl⟩⟩ := t
  obtain ⟨h1, h2, h3, h4, h5, h6, h7⟩ := h
  cases sd <;> cases pa <;> cases pb <;>
    simp_all [finishedPC, teardownish, contribApollo, contribClose,
      Option.isSome_iff_ne_none]

/-- C3: for every interleaving of two stop invocations in which both run to
completion, exactly one teardown sequence executes: apolloServer.stop is
invoked exactly once, the socket close at most once, and exactly once when
the teardown operations succeed, because the invocation that loses the
entry race observes the isShuttingDown flag and returns immediately. -/
theorem stop_single_teardown (envA envB : StopEnv) (sched : List Bool)
    (hA : finishedPC (runSched envA envB sched initTwo).pcA = true)
    (hB : finishedPC (runSched envA envB sched initTwo).pcB = true) :
    (runSched envA envB sched initTwo).st.apolloStops = 1
  ∧ (runSched envA envB sched initTwo).st.closeCalls ≤ 1
  ∧ (envA.apolloErr = none → envB.apolloErr = none →
      (runSched envA envB sched initTwo).st.closeCalls = 1) :=
  stop_inv_final envA envB _
    (stopInv_run envA envB sched initTwo (stopInv_initTwo envA envB)) hA hB

/-- Witness for C3: the schedule in which invocation A runs to completion
and then invocation B takes its entry step. -/
theorem stop_single_teardown_check :
    (runSched okStopEnv okStopEnv [true, true, true, false] initTwo).st.apolloStops = 1
  ∧ (runSched okStopEnv okStopEnv [true, true, true, false] initTwo).st.closeCalls ≤ 1
  ∧ (okStopEnv.apolloErr = none → okStopEnv.apolloErr = none →
      (runSched okStopEnv okStopEnv [true, true, true, false] initTwo).st.closeCalls = 1) :=
  stop_single_teardown okStopEnv okStopEnv [true, true, true, false] rfl rfl

/-- One stop step never clears the isShuttingDown latch. -/
theorem stopStep_flag_mono (env : StopEnv) (pc : StopPC) (s : StopState)
    (h : s.isShuttingDown = true) :
    (stopStep env pc s).2.isShuttingDown = true := by
  cases pc <;> simp only [stopStep] <;> (try split) <;> simp_all

/-- One scheduler step never clears the isShuttingDown latch. -/
theorem schedStep_flag_mono (envA envB : StopEnv) (b : Bool) (t : TwoStops)
    (h : t.st.isShuttingDown = true) :
    (schedStep envA envB b t).st.isShuttingDown = true := by
  obtain ⟨pa, pb, s⟩ := t
  cases b <;> simp only [schedStep, if_true, Bool.false_eq_true, if_false] <;>
    exact stopStep_flag_mono _ _ _ h

/-- No interleaving ever clears the isShuttingDown latch. -/
theorem runSched_flag_mono (envA envB : StopEnv) (sched : List Bool) :
    ∀ t : TwoStops, t.st.isShuttingDown = true →
      (runSched envA envB sched t).st.isShuttingDown = true := by
  induction sched with
  | nil => exact fun _ h => h
  | cons b rest ih =>
      exact fun t h => ih _ (schedStep_flag_mono envA envB b t h)

/-- C10: the isShuttingDown latch is set in the synchronous entry block of
stop, before the first await; no later step, failing or not, and no
interleaving ever clears it; once it is set, a subsequent stop call takes
its early return with the state untouched; and the getServerInfo snapshot
then reports isShuttingDown true. -/
theorem shutdown_flag_latch (envA envB env : StopEnv) (pc : StopPC)
    (s : StopState) (sched : List Bool) (t : TwoStops) (cfg : Config)
    (pid up : Nat) (l : Bool) :
    (s.isShuttingDown = false →
      stopStep env .entry s = (.doApollo, { s with isShuttingDown := true }))
  ∧ (s.isShuttingDown = true → (stopStep env pc s).2.isShuttingDown = true)
  ∧ (s.isShuttingDown = true → stopStep env .entry s = (.doneEarly, s))
  ∧ (t.st.isShuttingDown = true →
      (runSched envA envB sched t).st.isShuttingDown = true)
  ∧ (getServerInfoJson cfg pid up l true).lookup "isShuttingDown" =
      some (JVal.boolean true) := by
  refine ⟨fun hf => ?_, fun ht => stopStep_flag_mono env pc s ht,
    fun ht => ?_, fun ht => runSched_flag_mono envA envB sched t ht, rfl⟩
  · simp [stopStep, hf]
  · simp [stopStep, ht]

/-- Witness for C10: the latch transitions evaluated on concrete states and
a concrete two-step interleaving. -/
theorem shutdown_flag_latch_check :
    stopStep okStopEnv .entry ⟨false, 0, 0⟩ = (.doApollo, ⟨true, 0, 0⟩)
  ∧ (stopStep okStopEnv .doClose ⟨true, 1, 0⟩).2.isShuttingDown = true
  ∧ stopStep okStopEnv .entry ⟨true, 1, 1⟩ = (.doneEarly, ⟨true, 1, 1⟩)
  ∧ (runSched okStopEnv okStopEnv [true, false]
      ⟨.entry, .entry, ⟨true, 0, 0⟩⟩).st.isShuttingDown = true
  ∧ (getServerInfoJson devCfg 1 0 false true).lookup "isShuttingDown" =
      some (JVal.boolean true) :=
  ⟨(shutdown_flag_latch okStopEnv okStopEnv okStopEnv .entry ⟨false, 0, 0⟩ []
      initTwo devCfg 1 0 false).1 rfl,
   (shutdown_flag_latch okStopEnv okStopEnv okStopEnv .doClose ⟨true, 1, 0⟩ []
      initTwo devCfg 1 0 false).2.1 rfl,
   (shutdown_flag_latch okStopEnv okStopEnv okStopEnv .entry ⟨true, 1, 1⟩ []
      initTwo devCfg 1 0 false).2.2.1 rfl,
   (shutdown_flag_latch okStopEnv okStopEnv okStopEnv .entry ⟨true, 1, 1⟩
      [true, false] ⟨.entry, .entry, ⟨true, 0, 0⟩⟩ devCfg 1 0 false).2.2.2.1 rfl,
   (shutdown_flag_latch okStopEnv okStopEnv okStopEnv .entry ⟨true, 1, 1⟩ []
      initTwo devCfg 1 0 false).2.2.2.2⟩

/-- Witness for C9: evaluated on a GET request to the health route in
development mode. -/
theorem catch_all_never_shadows_check :
    (∃ t, dispatch (appHandlers true) ⟨.get, "/health"⟩ = some t ∧
       t ≠ HandlerTag.notFound)
  ∧ dispatch (appHandlers true) ⟨.get, "/nope"⟩ = some HandlerTag.notFound :=
  catch_all_never_shadows true .get "/health" (Or.inr (Or.inl ⟨rfl, rfl⟩))

end Uptimer
